import Mathlib

/-!
Verification of the migration orchestration core of the APImigrationTool
repository: the migration state machine (`src/state/state_tracker.py`), the
distributed lock manager (`src/state/lock_manager.py`), the batch discovery
processor (`src/discovery/batch_processor.py`) and the risk scorer
(`src/inventory/risk_scorer.py`), shallowly embedded in Lean.

Modelling conventions:
- Python `datetime.now()` timestamps are abstracted to a `Nat` clock value
  passed explicitly to each operation.
- Python floats are modelled as exact rationals (`ℚ`).
- The in-memory state dictionary is modelled as a function
  `String → Option MigrationState`.
- `setattr`/`hasattr` dynamic field updates are modelled by a typed field
  assignment on the known attribute names; assigning a value of the wrong
  shape to a known attribute is outside the typed model and leaves the
  record unchanged.
-/

namespace APIMigration

/-- `MigrationStatus` enum from `src/state/state_tracker.py`. -/
inductive MigrationStatus where
  | DISCOVERED
  | PLANNED
  | VALIDATED
  | DEPLOYED_MIRROR
  | CANARY_5
  | CANARY_25
  | CANARY_50
  | CANARY_75
  | COMPLETED
  | ROLLED_BACK
  | DECOMMISSIONED
  | FAILED
  deriving DecidableEq, Repr

open MigrationStatus

/-- The `VALID_TRANSITIONS` table from `src/state/state_tracker.py`. -/
def validTransitions : MigrationStatus → List MigrationStatus
  | DISCOVERED => [PLANNED, FAILED]
  | PLANNED => [VALIDATED, DISCOVERED, FAILED]
  | VALIDATED => [DEPLOYED_MIRROR, PLANNED, FAILED]
  | DEPLOYED_MIRROR => [CANARY_5, ROLLED_BACK, VALIDATED, FAILED]
  | CANARY_5 => [CANARY_25, ROLLED_BACK, DEPLOYED_MIRROR, FAILED]
  | CANARY_25 => [CANARY_50, ROLLED_BACK, CANARY_5, FAILED]
  | CANARY_50 => [CANARY_75, ROLLED_BACK, CANARY_25, FAILED]
  | CANARY_75 => [COMPLETED, ROLLED_BACK, CANARY_50, FAILED]
  | COMPLETED => [DECOMMISSIONED, ROLLED_BACK]
  | ROLLED_BACK => [DEPLOYED_MIRROR, FAILED]
  | DECOMMISSIONED => []
  | FAILED => [DISCOVERED]

/-- The `MigrationState` dataclass from `src/state/state_tracker.py`.
Timestamps are abstract `Nat` clock values; `gloo_configs` (a JSON-ish
dictionary in the source) is modelled as an association list of strings. -/
structure MigrationState where
  api_id : String
  api_name : String
  platform : String
  status : MigrationStatus
  previous_status : Option MigrationStatus := none
  gloo_namespace : Option String := none
  gloo_virtual_service_name : Option String := none
  gloo_configs : Option (List (String × String)) := none
  current_traffic_percentage : Int := 0
  target_traffic_percentage : Option Int := none
  legacy_error_rate : Option ℚ := none
  gloo_error_rate : Option ℚ := none
  legacy_p95_latency_ms : Option Int := none
  gloo_p95_latency_ms : Option Int := none
  last_transition_at : Option Nat := none
  transition_reason : Option String := none
  locked_by : Option String := none
  locked_at : Option Nat := none
  created_at : Option Nat := none
  updated_at : Option Nat := none
  deriving DecidableEq, Repr

/-- A dynamically-typed value passed as a `**kwargs` entry to
`StateTracker.transition`. -/
inductive FieldVal where
  | vStr (x : String)
  | vStatus (x : MigrationStatus)
  | vInt (x : Int)
  | vRat (x : ℚ)
  | vNat (x : Nat)
  | vConfigs (x : List (String × String))
  | vNone
  deriving DecidableEq, Repr

/-- The attribute names of the `MigrationState` dataclass, i.e. the keys for
which Python's `hasattr(state, key)` is true. -/
def migrationStateAttrs : List String :=
  ["api_id", "api_name", "platform", "status", "previous_status",
   "gloo_namespace", "gloo_virtual_service_name", "gloo_configs",
   "current_traffic_percentage", "target_traffic_percentage",
   "legacy_error_rate", "gloo_error_rate",
   "legacy_p95_latency_ms", "gloo_p95_latency_ms",
   "last_transition_at", "transition_reason",
   "locked_by", "locked_at", "created_at", "updated_at"]

/-- `hasattr(state, key)` for a `MigrationState` record. -/
def hasattrMS (k : String) : Bool :=
  migrationStateAttrs.contains k

/-- One `setattr(state, key, value)` step as performed in the kwargs loop of
`StateTracker.transition`: a known attribute name is written, any other key
is skipped (the source guards with `hasattr`). -/
def setAttrMS (s : MigrationState) (k : String) (v : FieldVal) : MigrationState :=
  if k = "api_id" then match v with | .vStr x => { s with api_id := x } | _ => s
  else if k = "api_name" then match v with | .vStr x => { s with api_name := x } | _ => s
  else if k = "platform" then match v with | .vStr x => { s with platform := x } | _ => s
  else if k = "status" then match v with | .vStatus x => { s with status := x } | _ => s
  else if k = "previous_status" then
    match v with
    | .vStatus x => { s with previous_status := some x }
    | .vNone => { s with previous_status := none }
    | _ => s
  else if k = "gloo_namespace" then
    match v with
    | .vStr x => { s with gloo_namespace := some x }
    | .vNone => { s with gloo_namespace := none }
    | _ => s
  else if k = "gloo_virtual_service_name" then
    match v with
    | .vStr x => { s with gloo_virtual_service_name := some x }
    | .vNone => { s with gloo_virtual_service_name := none }
    | _ => s
  else if k = "gloo_configs" then
    match v with
    | .vConfigs x => { s with gloo_configs := some x }
    | .vNone => { s with gloo_configs := none }
    | _ => s
  else if k = "current_traffic_percentage" then
    match v with | .vInt x => { s with current_traffic_percentage := x } | _ => s
  else if k = "target_traffic_percentage" then
    match v with
    | .vInt x => { s with target_traffic_percentage := some x }
    | .vNone => { s with target_traffic_percentage := none }
    | _ => s
  else if k = "legacy_error_rate" then
    match v with
    | .vRat x => { s with legacy_error_rate := some x }
    | .vNone => { s with legacy_error_rate := none }
    | _ => s
  else if k = "gloo_error_rate" then
    match v with
    | .vRat x => { s with gloo_error_rate := some x }
    | .vNone => { s with gloo_error_rate := none }
    | _ => s
  else if k = "legacy_p95_latency_ms" then
    match v with
    | .vInt x => { s with legacy_p95_latency_ms := some x }
    | .vNone => { s with legacy_p95_latency_ms := none }
    | _ => s
  else if k = "gloo_p95_latency_ms" then
    match v with
    | .vInt x => { s with gloo_p95_latency_ms := some x }
    | .vNone => { s with gloo_p95_latency_ms := none }
    | _ => s
  else if k = "last_transition_at" then
    match v with
    | .vNat x => { s with last_transition_at := some x }
    | .vNone => { s with last_transition_at := none }
    | _ => s
  else if k = "transition_reason" then
    match v with
    | .vStr x => { s with transition_reason := some x }
    | .vNone => { s with transition_reason := none }
    | _ => s
  else if k = "locked_by" then
    match v with
    | .vStr x => { s with locked_by := some x }
    | .vNone => { s with locked_by := none }
    | _ => s
  else if k = "locked_at" then
    match v with
    | .vNat x => { s with locked_at := some x }
    | .vNone => { s with locked_at := none }
    | _ => s
  else if k = "created_at" then
    match v with
    | .vNat x => { s with created_at := some x }
    | .vNone => { s with created_at := none }
    | _ => s
  else if k = "updated_at" then
    match v with
    | .vNat x => { s with updated_at := some x }
    | .vNone => { s with updated_at := none }
    | _ => s
  else s

/-- The `for key, value in kwargs.items(): if hasattr ... setattr ...` loop
of `StateTracker.transition`. -/
def applyKwargs (s : MigrationState) (kwargs : List (String × FieldVal)) : MigrationState :=
  kwargs.foldl (fun st kv => setAttrMS st kv.1 kv.2) s

/-- The in-memory store `self._states : Dict[str, MigrationState]` of
`StateTracker`, modelled as a lookup function. -/
abbrev Tracker := String → Option MigrationState

/-- The empty store of a freshly constructed `StateTracker`. -/
def emptyTracker : Tracker := fun _ => none

/-- `self._states[api_id] = state` (insert or overwrite). -/
def updateTracker (tr : Tracker) (apiId : String) (s : MigrationState) : Tracker :=
  fun k => if k = apiId then some s else tr k

/-- `StateTracker.get_state`. -/
def getState (tr : Tracker) (apiId : String) : Option MigrationState :=
  tr apiId

/-- `StateTracker.create_state`: builds a fresh record and stores it under
`api_id` unconditionally. Returns the new record and the updated store. -/
def createState (tr : Tracker) (apiId apiName platform : String)
    (initialStatus : MigrationStatus) (now : Nat) : MigrationState × Tracker :=
  let s : MigrationState :=
    { api_id := apiId
      api_name := apiName
      platform := platform
      status := initialStatus
      created_at := some now
      updated_at := some now
      last_transition_at := some now }
  (s, updateTracker tr apiId s)

/-- `StateTracker.can_transition`. -/
def canTransition (cur target : MigrationStatus) : Bool :=
  (validTransitions cur).contains target

/-- Errors raised by `StateTracker` methods: `ValueError` for a missing
record, `StateTransitionError` (carrying the offending states) for an
invalid edge or a canary advance from outside the progression. -/
inductive TrackerError where
  | notFound (apiId : String)
  | invalidTransition (cur target : MigrationStatus)
  | cannotAdvance (cur : MigrationStatus)
  deriving DecidableEq, Repr

/-- Which of the tracker errors are `StateTransitionError` (as opposed to
`ValueError`) in the source. -/
def TrackerError.isStateTransitionError : TrackerError → Bool
  | .notFound _ => false
  | .invalidTransition _ _ => true
  | .cannotAdvance _ => true

/-- `StateTracker.transition`. On success returns the updated record and the
updated store; on error returns the error and the store untouched (the
source raises before mutating anything). -/
def transitionT (tr : Tracker) (apiId : String) (target : MigrationStatus)
    (reason : Option String) (kwargs : List (String × FieldVal)) (now : Nat) :
    Except TrackerError MigrationState × Tracker :=
  match getState tr apiId with
  | none => (.error (.notFound apiId), tr)
  | some s =>
    if canTransition s.status target then
      let s' := applyKwargs
        { s with
          previous_status := some s.status
          status := target
          last_transition_at := some now
          transition_reason := reason
          updated_at := some now } kwargs
      (.ok s', updateTracker tr apiId s')
    else
      (.error (.invalidTransition s.status target), tr)

/-- `StateTracker.get_traffic_percentage_for_status`: the fixed
status-to-traffic-percentage map (`dict.get` default 0 covers
`DECOMMISSIONED` and `FAILED`). -/
def trafficFor : MigrationStatus → Int
  | CANARY_5 => 5
  | CANARY_25 => 25
  | CANARY_50 => 50
  | CANARY_75 => 75
  | COMPLETED => 100
  | _ => 0

/-- The `canary_progression` list inside `StateTracker.advance_canary`. -/
def canaryProgression : List MigrationStatus :=
  [DEPLOYED_MIRROR, CANARY_5, CANARY_25, CANARY_50, CANARY_75, COMPLETED]

/-- `canary_progression.index(status)` followed by indexing at the successor:
`none` models the `ValueError`/`IndexError` branch. -/
def nextCanaryStatus (st : MigrationStatus) : Option MigrationStatus :=
  match canaryProgression.indexOf? st with
  | none => none
  | some i => canaryProgression[i + 1]?

/-- `StateTracker.advance_canary`. The Python default reason
`f"Advancing to {next_traffic}% traffic"` is used when `reason` is `None`
or empty (`reason or default`). -/
def advanceCanary (tr : Tracker) (apiId : String) (reason : Option String)
    (now : Nat) : Except TrackerError MigrationState × Tracker :=
  match getState tr apiId with
  | none => (.error (.notFound apiId), tr)
  | some s =>
    match nextCanaryStatus s.status with
    | none => (.error (.cannotAdvance s.status), tr)
    | some nxt =>
      let nextTraffic := trafficFor nxt
      let dflt := "Advancing to " ++ toString nextTraffic ++ "% traffic"
      let rsn := match reason with
        | none => dflt
        | some r => if r = "" then dflt else r
      transitionT tr apiId nxt (some rsn)
        [("current_traffic_percentage", .vInt nextTraffic),
         ("target_traffic_percentage", .vInt nextTraffic)] now

/-- `StateTracker.rollback`. -/
def rollbackT (tr : Tracker) (apiId : String) (reason : String) (now : Nat) :
    Except TrackerError MigrationState × Tracker :=
  transitionT tr apiId ROLLED_BACK (some reason)
    [("current_traffic_percentage", .vInt 0)] now

/-- `StateTracker.fail`. -/
def failT (tr : Tracker) (apiId : String) (reason : String) (now : Nat) :
    Except TrackerError MigrationState × Tracker :=
  transitionT tr apiId FAILED (some reason) [] now

/-- Repeated application of `advance_canary` (with no explicit reason),
threading the store; stops at the first error. -/
def advanceSeq (apiId : String) (now : Nat) : Nat → Tracker → Except TrackerError Tracker
  | 0, tr => .ok tr
  | n + 1, tr =>
    match advanceSeq apiId now n tr with
    | .error e => .error e
    | .ok tr' =>
      match advanceCanary tr' apiId none now with
      | (.ok _, tr'') => .ok tr''
      | (.error e, _) => .error e

/-! ## Risk scorer (`src/inventory/risk_scorer.py`) -/

/-- `RiskLevel` enum. -/
inductive RiskLevel where
  | LOW | MEDIUM | HIGH | CRITICAL
  deriving DecidableEq, Repr

/-- `BusinessCriticality` enum. -/
inductive BusinessCriticality where
  | LOW | MEDIUM | HIGH | CRITICAL
  deriving DecidableEq, Repr

/-- `TrafficPattern` dataclass. Latencies and request counts are Python
ints, the error rate a Python float (modelled as `ℚ`). -/
structure TrafficPattern where
  avg_requests_per_day : Option Int := none
  peak_requests_per_sec : Option Int := none
  avg_latency_ms : Option Int := none
  p95_latency_ms : Option Int := none
  p99_latency_ms : Option Int := none
  error_rate : Option ℚ := none
  has_traffic_spikes : Bool := false
  peak_hours : Option String := none
  deriving DecidableEq, Repr

/-- `RiskScore` dataclass (component scores for traffic, performance and
auth only, as in the source). -/
structure RiskScore where
  overall_score : ℚ
  risk_level : RiskLevel
  business_criticality : BusinessCriticality
  traffic_risk : ℚ
  performance_risk : ℚ
  auth_risk : ℚ
  risk_factors : List String
  recommendations : List String
  deriving DecidableEq, Repr

/-- Python `round(x, 2)` rounds to the nearest multiple of `1/100`, ties to
the even multiple. Here: the integer nearest `x`, ties to even (evenness
tested as remainder 0 modulo 2). -/
def roundHalfEven (x : ℚ) : ℤ :=
  if x - ⌊x⌋ < 1 / 2 then ⌊x⌋
  else if 1 / 2 < x - ⌊x⌋ then ⌊x⌋ + 1
  else if ⌊x⌋ % 2 = 0 then ⌊x⌋ else ⌊x⌋ + 1

/-- `round(x, 2)` on an exact rational. -/
def round2 (x : ℚ) : ℚ :=
  (roundHalfEven (x * 100) : ℚ) / 100

/-- `RiskScorer._calculate_traffic_risk`: returns the risk component and
the strings it appends to `risk_factors`. Note that Python's
`not traffic_pattern.avg_requests_per_day` is true both for `None` and for
`0`, so a zero request count takes the "unknown traffic" branch. The
human-readable messages keep the source wording (number formatting
abbreviated). -/
def calcTrafficRisk (tp : Option TrafficPattern) : ℚ × List String :=
  match tp with
  | none => (0.5, ["Traffic volume unknown"])
  | some t =>
    match t.avg_requests_per_day with
    | none => (0.5, ["Traffic volume unknown"])
    | some r =>
      if r = 0 then (0.5, ["Traffic volume unknown"])
      else if r ≥ 10000000 then (1, ["Very high traffic: " ++ toString r ++ " req/day"])
      else if r ≥ 1000000 then (0.8, ["High traffic: " ++ toString r ++ " req/day"])
      else if r ≥ 100000 then (0.5, ["Moderate traffic: " ++ toString r ++ " req/day"])
      else if r ≥ 10000 then (0.3, [])
      else (0.1, [])

/-- `RiskScorer._calculate_performance_risk`. -/
def calcPerformanceRisk (tp : Option TrafficPattern) : ℚ × List String :=
  match tp with
  | none => (0.3, [])
  | some t =>
    let errPart : ℚ × List String :=
      match t.error_rate with
      | some e =>
        if e ≥ 0.05 then (0.5, ["High error rate: " ++ toString (e * 100) ++ "%"])
        else if e ≥ 0.01 then (0.25, ["Elevated error rate: " ++ toString (e * 100) ++ "%"])
        else if e ≥ 0.001 then (0.1, [])
        else (0, [])
      | none => (0.15, [])
    let latPart : ℚ × List String :=
      match t.p95_latency_ms with
      | some p =>
        if p ≥ 2000 then (0.5, ["High latency: p95=" ++ toString p ++ "ms"])
        else if p ≥ 500 then (0.25, [])
        else if p ≥ 100 then (0.1, [])
        else (0, [])
      | none => (0.15, [])
    (min (errPart.1 + latPart.1) 1, errPart.2 ++ latPart.2)

/-- The `auth_complexity` lookup table with its `dict.get(..., 0.5)`
default. -/
def authComplexity (m : String) : ℚ :=
  if m = "none" then 0.1
  else if m = "api-key" then 0.2
  else if m = "http-basic" then 0.2
  else if m = "jwt" then 0.5
  else if m = "oauth" then 0.7
  else if m = "oauth2" then 0.7
  else if m = "mtls" then 0.9
  else if m = "saml" then 0.8
  else if m = "custom" then 1
  else 0.5

/-- `RiskScorer._calculate_auth_risk`: maximum (not sum) of per-method
complexity; `not auth_methods` covers `None` and the empty list. -/
def calcAuthRisk (authMethods : Option (List String)) : ℚ × List String :=
  match authMethods with
  | none => (0.1, ["No authentication (easy migration)"])
  | some ms =>
    if ms = [] then (0.1, ["No authentication (easy migration)"])
    else
      let maxComplexity := ms.foldl (fun acc m => max acc (authComplexity m.toLower)) 0
      (maxComplexity,
        if maxComplexity ≥ 0.7 then ["Complex auth: " ++ String.intercalate ", " ms] else [])

/-- `RiskScorer._calculate_complexity_risk`. -/
def calcComplexityRisk (numDependencies : Int) (hasCustomMiddleware : Bool) :
    ℚ × List String :=
  let depPart : ℚ × List String :=
    if numDependencies > 10 then (0.8, ["Many dependencies: " ++ toString numDependencies])
    else if numDependencies > 5 then (0.5, [])
    else if numDependencies > 0 then (0.2, [])
    else (0, [])
  let mwPart : ℚ × List String :=
    if hasCustomMiddleware then (0.5, ["Custom middleware/policies"]) else (0, [])
  (min (depPart.1 + mwPart.1) 1, depPart.2 ++ mwPart.2)

/-- `RiskScorer._score_to_risk_level`. -/
def scoreToRiskLevel (score : ℚ) : RiskLevel :=
  if score ≥ 0.75 then .CRITICAL
  else if score ≥ 0.5 then .HIGH
  else if score ≥ 0.25 then .MEDIUM
  else .LOW

/-- The `criticality_multiplier` dictionary. -/
def criticalityMultiplier : BusinessCriticality → ℚ
  | .LOW => 0.8
  | .MEDIUM => 1.0
  | .HIGH => 1.2
  | .CRITICAL => 1.5

/-- `RiskScorer._generate_recommendations`. -/
def generateRecommendations (level : RiskLevel) (tp : Option TrafficPattern)
    (authMethods : Option (List String)) : List String :=
  let base :=
    match level with
    | .CRITICAL =>
      ["Deploy with extended traffic mirroring (7+ days)",
       "Use smallest canary increments (1%, 3%, 5%)",
       "Require multiple approvers",
       "Schedule during low-traffic window"]
    | .HIGH =>
      ["Extended mirroring period (3-5 days)",
       "Conservative canary rollout",
       "Monitor closely during migration"]
    | .MEDIUM =>
      ["Standard mirroring (24 hours)",
       "Standard canary phases (5%, 25%, 50%, 100%)"]
    | .LOW =>
      ["Fast-track migration candidate",
       "Standard or accelerated rollout"]
  let authRecs :=
    match authMethods with
    | some ms =>
      if ms.any (fun m => m.toLower = "oauth" || m.toLower = "mtls" || m.toLower = "saml") then
        ["Thoroughly test auth flows in staging",
         "Validate token handling and expiration"]
      else []
    | none => []
  let perfRecs :=
    match tp with
    | some t => if t.has_traffic_spikes then ["Monitor during expected traffic spikes"] else []
    | none => []
  base ++ authRecs ++ perfRecs

/-- `RiskScorer.calculate_risk`. The criticality multiplier and the cap at
1.0 are applied only when a criticality is supplied, exactly as in the
source; all returned component scores are rounded to two decimals with
Python `round`. -/
def calculateRisk (_apiName : String) (tp : Option TrafficPattern)
    (authMethods : Option (List String)) (businessCriticality : Option BusinessCriticality)
    (numDependencies : Int) (hasCustomMiddleware : Bool) : RiskScore :=
  let traffic := calcTrafficRisk tp
  let perf := calcPerformanceRisk tp
  let auth := calcAuthRisk authMethods
  let complexity := calcComplexityRisk numDependencies hasCustomMiddleware
  let weighted := traffic.1 * 0.4 + perf.1 * 0.3 + auth.1 * 0.2 + complexity.1 * 0.1
  let overall :=
    match businessCriticality with
    | none => weighted
    | some c => min (weighted * criticalityMultiplier c) 1
  let level := scoreToRiskLevel overall
  { overall_score := round2 overall
    risk_level := level
    business_criticality := businessCriticality.getD .MEDIUM
    traffic_risk := round2 traffic.1
    performance_risk := round2 perf.1
    auth_risk := round2 auth.1
    risk_factors := traffic.2 ++ perf.2 ++ auth.2 ++ complexity.2
    recommendations := generateRecommendations level tp authMethods }

/-! ## Lock manager (`src/state/lock_manager.py`)

The Redis slice a single `(platform, api_name)` key pair touches: the lock
key (present with a TTL or absent) and the metadata hash (value plus its own
TTL). Wall-clock datetimes are abstract `Nat` instants. -/

/-- The metadata hash written by `acquire_lock` under the `info` key. -/
structure LockInfo where
  team : String
  locked_at : Nat
  expires_at : Nat
  reason : String
  lock_id : String
  deriving DecidableEq, Repr

/-- The store content for one lock key pair: `lockTTL` is the remaining TTL
of the Redis lock key (`none` = key absent), `infoVal`/`infoTTL` the
metadata hash and its TTL. -/
structure LockStore where
  lockTTL : Option Nat := none
  infoVal : Option LockInfo := none
  infoTTL : Option Nat := none
  deriving DecidableEq, Repr

/-- `LockManager.owns_lock`: reads the metadata hash; an empty hash means
not owned, otherwise compare the stored `team` field with the caller's
team. -/
def ownsLock (st : LockStore) (teamName : String) : Bool :=
  match st.infoVal with
  | none => false
  | some info => info.team = teamName

/-- `LockManager.renew_lock`: refuse unless `owns_lock`; then
`redis.expire(lock_key, timeout)` succeeds exactly when the lock key still
exists, and only in that case are the metadata `expires_at` and TTLs
refreshed. Returns the `renewed` flag and the resulting store. -/
def renewLock (st : LockStore) (teamName : String) (timeout now : Nat) :
    Bool × LockStore :=
  if ¬ ownsLock st teamName then (false, st)
  else
    match st.lockTTL with
    | none => (false, st)
    | some _ =>
      (true,
        { st with
          lockTTL := some timeout
          infoVal := st.infoVal.map (fun i => { i with expires_at := now + timeout })
          infoTTL := some timeout })

/-! ## Batch discovery processor (`src/discovery/batch_processor.py`) -/

/-- The `DiscoveredAPI` dataclass from `src/connectors/base.py`
(platform-specific `legacy_metadata` as an association list, discovery
timestamp abstracted to `Nat`). -/
structure DiscoveredAPI where
  name : String
  platform : String
  base_path : String
  version : String
  description : String
  catalog : String := "default"
  collection : String := "uncategorized"
  owner_team : Option String := none
  owner_domain : Option String := none
  tags : List String := []
  protocol : Option String := none
  auth_methods : List String := []
  avg_requests_per_day : Option Int := none
  avg_latency_ms : Option Int := none
  error_rate : Option ℚ := none
  legacy_metadata : List (String × String) := []
  discovered_at : Option Nat := none
  deriving DecidableEq, Repr

/-- The `APIMetadata` record from `src/config/filter_engine.py` (the fields
`BatchProcessor._discover_platform` populates). -/
structure APIMetadata where
  name : String
  platform : String
  tags : List String := []
  owner_team : Option String := none
  owner_domain : Option String := none
  path : Option String := none
  version : Option String := none
  deriving DecidableEq, Repr

/-- The `APIMetadata(...)` conversion inside
`BatchProcessor._discover_platform`. -/
def toAPIMetadata (api : DiscoveredAPI) : APIMetadata :=
  { name := api.name
    platform := api.platform
    tags := api.tags
    owner_team := api.owner_team
    owner_domain := api.owner_domain
    path := some api.base_path }

/-- The filter-engine collaborator: `FilterEngine.filter` maps a metadata
list to the sublist that passes the configured filters. -/
abbrev FilterFn := List APIMetadata → List APIMetadata

/-- The `BatchDiscoveryResult` dataclass. -/
structure BatchDiscoveryResult where
  platform : String
  total_discovered : Nat
  filtered_count : Nat
  apis : List DiscoveredAPI
  errors : List String
  duration_seconds : ℚ
  success : Bool
  deriving DecidableEq, Repr

/-- A discovery-source collaborator (`PlatformConnector`): the outcome of
`connect()` and of `discover_apis()`, an `error` being a raised exception
carrying its message. A source that raises on every attempt is one whose
outcome is an `error`. -/
structure Connector where
  connectResult : Except String Unit
  discoverResult : Except String (List DiscoveredAPI)

/-- The body of `BatchProcessor._discover_platform` (cache disabled, as the
cache lookup in the source is a stub returning `None`). The surrounding
`try/except Exception` catches every raised exception — including the
re-raised connect/discover errors — and turns it into a failed
`BatchDiscoveryResult`, so the body never lets an exception escape.
Wall-clock durations are abstracted to 0. -/
def discoverPlatformBody (platformName : String) (conn : Connector)
    (filterEng : Option FilterFn) : BatchDiscoveryResult :=
  match conn.connectResult with
  | .error e =>
    { platform := platformName
      total_discovered := 0
      filtered_count := 0
      apis := []
      errors := ["Connection failed: " ++ e, e]
      duration_seconds := 0
      success := false }
  | .ok _ =>
    match conn.discoverResult with
    | .error e =>
      { platform := platformName
        total_discovered := 0
        filtered_count := 0
        apis := []
        errors := ["Discovery failed: " ++ e, e]
        duration_seconds := 0
        success := false }
    | .ok discovered =>
      let filtered :=
        match filterEng with
        | none => discovered
        | some f =>
          let names := (f (discovered.map toAPIMetadata)).map (·.name)
          discovered.filter (fun api => names.contains api.name)
      { platform := platformName
        total_discovered := discovered.length
        filtered_count := filtered.length
        apis := filtered
        errors := []
        duration_seconds := 0
        success := true }

/-- The tenacity `@retry(stop=stop_after_attempt(3), ...)` wrapper: call the
attempt function until it returns without raising or the attempt budget is
spent, re-raising the last exception. Returns the outcome together with the
number of attempts actually made. `f n` is the outcome of the `n`-th call
(1-based). -/
def retryRun (f : Nat → Except String α) : Nat → Nat → Except String α × Nat
  | attempt, fuel =>
    match f attempt with
    | .ok a => (.ok a, attempt)
    | .error e =>
      match fuel with
      | 0 => (.error e, attempt)
      | fuel' + 1 => retryRun f (attempt + 1) fuel'

/-- The decorated `_discover_platform` as invoked by `discover_all`: the
retry wrapper around a body that never raises (its catch-all `except`
returns a failed result instead). `stop_after_attempt(3)` allows two
retries after the first attempt. -/
def discoverPlatformCall (platformName : String) (conn : Connector)
    (filterEng : Option FilterFn) : Except String BatchDiscoveryResult × Nat :=
  retryRun (fun _ => Except.ok (discoverPlatformBody platformName conn filterEng)) 1 2

/-- Number of attempts `_discover_platform` makes on this connector. -/
def discoverAttempts (platformName : String) (conn : Connector)
    (filterEng : Option FilterFn) : Nat :=
  (discoverPlatformCall platformName conn filterEng).2

/-- `BatchProcessor.discover_all`: one result per configured platform; if
`future.result()` were to raise, the `except` branch builds the failed
placeholder result. The thread pool affects scheduling only, not the
result map, so the map is modelled directly. -/
def discoverAll (connectors : List (String × Connector)) (filterEng : Option FilterFn) :
    List (String × BatchDiscoveryResult) :=
  connectors.map (fun pc =>
    (pc.1,
      match (discoverPlatformCall pc.1 pc.2 filterEng).1 with
      | .ok r => r
      | .error e =>
        { platform := pc.1
          total_discovered := 0
          filtered_count := 0
          apis := []
          errors := [e]
          duration_seconds := 0
          success := false }))

/-! ## Helper lemmas for the state tracker -/

theorem getState_updateTracker_self (tr : Tracker) (apiId : String) (s : MigrationState) :
    getState (updateTracker tr apiId s) apiId = some s := by
  simp [getState, updateTracker]

theorem applyKwargs_ctp_ttp (s : MigrationState) (n : Int) :
    applyKwargs s
      [("current_traffic_percentage", .vInt n), ("target_traffic_percentage", .vInt n)] =
    { s with current_traffic_percentage := n, target_traffic_percentage := some n } := rfl

theorem applyKwargs_ctp_zero (s : MigrationState) :
    applyKwargs s [("current_traffic_percentage", .vInt 0)] =
    { s with current_traffic_percentage := 0 } := rfl

theorem applyKwargs_nil (s : MigrationState) : applyKwargs s [] = s := rfl

/-- The record produced by a successful `advance_canary` step to `nxt`. -/
def advRecord (s : MigrationState) (nxt : MigrationStatus) (now : Nat) : MigrationState :=
  { s with
    previous_status := some s.status
    status := nxt
    last_transition_at := some now
    transition_reason := some ("Advancing to " ++ toString (trafficFor nxt) ++ "% traffic")
    updated_at := some now
    current_traffic_percentage := trafficFor nxt
    target_traffic_percentage := some (trafficFor nxt) }

theorem advanceCanary_eq (tr : Tracker) (api : String) (s : MigrationState) (now : Nat)
    (nxt : MigrationStatus) (h : getState tr api = some s)
    (hn : nextCanaryStatus s.status = some nxt)
    (hc : canTransition s.status nxt = true) :
    advanceCanary tr api none now =
      (.ok (advRecord s nxt now), updateTracker tr api (advRecord s nxt now)) := by
  simp only [advanceCanary, h, hn]
  simp only [transitionT, getState] at h ⊢
  simp only [h, hc, if_true]
  rw [applyKwargs_ctp_ttp]
  rfl

theorem advanceCanary_err (tr : Tracker) (api : String) (s : MigrationState) (now : Nat)
    (h : getState tr api = some s) (hn : nextCanaryStatus s.status = none) :
    advanceCanary tr api none now = (.error (.cannotAdvance s.status), tr) := by
  simp only [advanceCanary, h, hn]

/-! ## Concrete fixtures used by counterexamples and witnesses -/

deriving instance DecidableEq for Except

/-- A state record sitting at `DEPLOYED_MIRROR` with 0% traffic. -/
def mirrorRecord : MigrationState :=
  { api_id := "api-1", api_name := "payments", platform := "apic",
    status := DEPLOYED_MIRROR }

/-- A one-record store holding `mirrorRecord`. -/
def mirrorTracker : Tracker := updateTracker emptyTracker "api-1" mirrorRecord

/-! ## Claim C6 -/

/-- Claim C6 (counterexample): the claim asserts that every state of the
linear forward progression, `COMPLETED` included, has `FAILED` in its
allowed-edge set; but `VALID_TRANSITIONS[COMPLETED]` is
`[DECOMMISSIONED, ROLLED_BACK]`, which does not contain `FAILED`. -/
theorem c6_completed_cannot_fail : FAILED ∉ validTransitions COMPLETED := by decide

/-- Claim C6 (amended): every state of the linear forward progression except
`COMPLETED` has `FAILED` in its allowed-edge set; `COMPLETED`'s edges are
exactly `DECOMMISSIONED` and `ROLLED_BACK` (no `FAILED`); `DECOMMISSIONED`
has an empty allowed-edge set; and `FAILED`'s only allowed edge is to
`DISCOVERED`. -/
theorem c6_transition_table_shape :
    ([DISCOVERED, PLANNED, VALIDATED, DEPLOYED_MIRROR,
      CANARY_5, CANARY_25, CANARY_50, CANARY_75].all
        (fun st => (validTransitions st).contains FAILED)) = true ∧
    validTransitions COMPLETED = [DECOMMISSIONED, ROLLED_BACK] ∧
    validTransitions DECOMMISSIONED = [] ∧
    validTransitions FAILED = [DISCOVERED] := by decide

/-! ## Claim C1 -/

/-- Claim C1 (counterexample): starting from a `DEPLOYED_MIRROR` record with
0% traffic, the sixth application of `advance_canary` does not succeed — it
raises `StateTransitionError` (`Cannot advance canary from status
COMPLETED`), contradicting the claim that six applications succeed and only
the seventh fails. -/
theorem c1_sixth_advance_fails :
    (advanceSeq "api-1" 7 6 mirrorTracker).map (fun _ => ()) =
      .error (.cannotAdvance COMPLETED) ∧
    (advanceSeq "api-1" 7 5 mirrorTracker).map
        (fun tr => (getState tr "api-1").map (fun r => r.status)) =
      .ok (some COMPLETED) := by decide

/-- Claim C1 (amended): starting from a state record whose status is
`DEPLOYED_MIRROR` and whose `current_traffic_percentage` is 0, applying
`advance_canary` five times succeeds and reaches `COMPLETED`, the record's
`current_traffic_percentage` taking the values 0, 5, 25, 50, 75, 100 in
order across the six successive states; a sixth application fails with
`StateTransitionError`. -/
theorem c1_canary_progression (tr : Tracker) (api : String) (s : MigrationState)
    (now : Nat) (h : getState tr api = some s) (hst : s.status = DEPLOYED_MIRROR)
    (htp : s.current_traffic_percentage = 0) :
    ∃ r1 tr1 r2 tr2 r3 tr3 r4 tr4 r5 tr5,
      s.current_traffic_percentage = 0 ∧
      advanceCanary tr api none now = (.ok r1, tr1) ∧
        r1.status = CANARY_5 ∧ r1.current_traffic_percentage = 5 ∧
      advanceCanary tr1 api none now = (.ok r2, tr2) ∧
        r2.status = CANARY_25 ∧ r2.current_traffic_percentage = 25 ∧
      advanceCanary tr2 api none now = (.ok r3, tr3) ∧
        r3.status = CANARY_50 ∧ r3.current_traffic_percentage = 50 ∧
      advanceCanary tr3 api none now = (.ok r4, tr4) ∧
        r4.status = CANARY_75 ∧ r4.current_traffic_percentage = 75 ∧
      advanceCanary tr4 api none now = (.ok r5, tr5) ∧
        r5.status = COMPLETED ∧ r5.current_traffic_percentage = 100 ∧
      advanceCanary tr5 api none now = (.error (.cannotAdvance COMPLETED), tr5) ∧
      TrackerError.isStateTransitionError (.cannotAdvance COMPLETED) = true := by
  have e1 := advanceCanary_eq tr api s now CANARY_5 h
    (by rw [hst]; decide) (by rw [hst]; decide)
  set s1 : MigrationState := advRecord s CANARY_5 now with hs1
  set T1 : Tracker := updateTracker tr api s1 with hT1
  have g1 : getState T1 api = some s1 := getState_updateTracker_self tr api s1
  have e2 := advanceCanary_eq T1 api s1 now CANARY_25 g1 rfl rfl
  set s2 : MigrationState := advRecord s1 CANARY_25 now with hs2
  set T2 : Tracker := updateTracker T1 api s2 with hT2
  have g2 : getState T2 api = some s2 := getState_updateTracker_self T1 api s2
  have e3 := advanceCanary_eq T2 api s2 now CANARY_50 g2 rfl rfl
  set s3 : MigrationState := advRecord s2 CANARY_50 now with hs3
  set T3 : Tracker := updateTracker T2 api s3 with hT3
  have g3 : getState T3 api = some s3 := getState_updateTracker_self T2 api s3
  have e4 := advanceCanary_eq T3 api s3 now CANARY_75 g3 rfl rfl
  set s4 : MigrationState := advRecord s3 CANARY_75 now with hs4
  set T4 : Tracker := updateTracker T3 api s4 with hT4
  have g4 : getState T4 api = some s4 := getState_updateTracker_self T3 api s4
  have e5 := advanceCanary_eq T4 api s4 now COMPLETED g4 rfl rfl
  set s5 : MigrationState := advRecord s4 COMPLETED now with hs5
  set T5 : Tracker := updateTracker T4 api s5 with hT5
  have g5 : getState T5 api = some s5 := getState_updateTracker_self T4 api s5
  have e6 := advanceCanary_err T5 api s5 now g5 rfl
  exact ⟨s1, T1, s2, T2, s3, T3, s4, T4, s5, T5,
    htp, e1, rfl, rfl, e2, rfl, rfl, e3, rfl, rfl, e4, rfl, rfl,
    e5, rfl, rfl, e6, rfl⟩

/-- Claim C1 (witness): the amended theorem applied to the concrete
one-record store `mirrorTracker`. -/
theorem c1_canary_progression_witness :
    getState mirrorTracker "api-1" = some mirrorRecord ∧
    mirrorRecord.status = DEPLOYED_MIRROR ∧
    mirrorRecord.current_traffic_percentage = 0 ∧
    (∃ r1 tr1 r2 tr2 r3 tr3 r4 tr4 r5 tr5,
      mirrorRecord.current_traffic_percentage = 0 ∧
      advanceCanary mirrorTracker "api-1" none 7 = (.ok r1, tr1) ∧
        r1.status = CANARY_5 ∧ r1.current_traffic_percentage = 5 ∧
      advanceCanary tr1 "api-1" none 7 = (.ok r2, tr2) ∧
        r2.status = CANARY_25 ∧ r2.current_traffic_percentage = 25 ∧
      advanceCanary tr2 "api-1" none 7 = (.ok r3, tr3) ∧
        r3.status = CANARY_50 ∧ r3.current_traffic_percentage = 50 ∧
      advanceCanary tr3 "api-1" none 7 = (.ok r4, tr4) ∧
        r4.status = CANARY_75 ∧ r4.current_traffic_percentage = 75 ∧
      advanceCanary tr4 "api-1" none 7 = (.ok r5, tr5) ∧
        r5.status = COMPLETED ∧ r5.current_traffic_percentage = 100 ∧
      advanceCanary tr5 "api-1" none 7 = (.error (.cannotAdvance COMPLETED), tr5) ∧
      TrackerError.isStateTransitionError (.cannotAdvance COMPLETED) = true) :=
  ⟨by decide, rfl, rfl,
    c1_canary_progression mirrorTracker "api-1" mirrorRecord 7 (by decide) rfl rfl⟩

/-! ## Kwargs lemmas -/

theorem setAttrMS_status_eq (s : MigrationState) (k : String) (v : FieldVal)
    (hk : k ≠ "status") : (setAttrMS s k v).status = s.status := by
  by_cases h1 : k = "api_id"
  · subst h1; cases v <;> rfl
  by_cases h2 : k = "api_name"
  · subst h2; cases v <;> rfl
  by_cases h3 : k = "platform"
  · subst h3; cases v <;> rfl
  by_cases h4 : k = "status"
  · exact absurd h4 hk
  by_cases h5 : k = "previous_status"
  · subst h5; cases v <;> rfl
  by_cases h6 : k = "gloo_namespace"
  · subst h6; cases v <;> rfl
  by_cases h7 : k = "gloo_virtual_service_name"
  · subst h7; cases v <;> rfl
  by_cases h8 : k = "gloo_configs"
  · subst h8; cases v <;> rfl
  by_cases h9 : k = "current_traffic_percentage"
  · subst h9; cases v <;> rfl
  by_cases h10 : k = "target_traffic_percentage"
  · subst h10; cases v <;> rfl
  by_cases h11 : k = "legacy_error_rate"
  · subst h11; cases v <;> rfl
  by_cases h12 : k = "gloo_error_rate"
  · subst h12; cases v <;> rfl
  by_cases h13 : k = "legacy_p95_latency_ms"
  · subst h13; cases v <;> rfl
  by_cases h14 : k = "gloo_p95_latency_ms"
  · subst h14; cases v <;> rfl
  by_cases h15 : k = "last_transition_at"
  · subst h15; cases v <;> rfl
  by_cases h16 : k = "transition_reason"
  · subst h16; cases v <;> rfl
  by_cases h17 : k = "locked_by"
  · subst h17; cases v <;> rfl
  by_cases h18 : k = "locked_at"
  · subst h18; cases v <;> rfl
  by_cases h19 : k = "created_at"
  · subst h19; cases v <;> rfl
  by_cases h20 : k = "updated_at"
  · subst h20; cases v <;> rfl
  unfold setAttrMS
  rw [if_neg h1, if_neg h2, if_neg h3, if_neg h4, if_neg h5, if_neg h6, if_neg h7, if_neg h8, if_neg h9, if_neg h10, if_neg h11, if_neg h12, if_neg h13, if_neg h14, if_neg h15, if_neg h16, if_neg h17, if_neg h18, if_neg h19, if_neg h20]

theorem setAttrMS_prev_eq (s : MigrationState) (k : String) (v : FieldVal)
    (hk : k ≠ "previous_status") : (setAttrMS s k v).previous_status = s.previous_status := by
  by_cases h1 : k = "api_id"
  · subst h1; cases v <;> rfl
  by_cases h2 : k = "api_name"
  · subst h2; cases v <;> rfl
  by_cases h3 : k = "platform"
  · subst h3; cases v <;> rfl
  by_cases h4 : k = "status"
  · subst h4; cases v <;> rfl
  by_cases h5 : k = "previous_status"
  · exact absurd h5 hk
  by_cases h6 : k = "gloo_namespace"
  · subst h6; cases v <;> rfl
  by_cases h7 : k = "gloo_virtual_service_name"
  · subst h7; cases v <;> rfl
  by_cases h8 : k = "gloo_configs"
  · subst h8; cases v <;> rfl
  by_cases h9 : k = "current_traffic_percentage"
  · subst h9; cases v <;> rfl
  by_cases h10 : k = "target_traffic_percentage"
  · subst h10; cases v <;> rfl
  by_cases h11 : k = "legacy_error_rate"
  · subst h11; cases v <;> rfl
  by_cases h12 : k = "gloo_error_rate"
  · subst h12; cases v <;> rfl
  by_cases h13 : k = "legacy_p95_latency_ms"
  · subst h13; cases v <;> rfl
  by_cases h14 : k = "gloo_p95_latency_ms"
  · subst h14; cases v <;> rfl
  by_cases h15 : k = "last_transition_at"
  · subst h15; cases v <;> rfl
  by_cases h16 : k = "transition_reason"
  · subst h16; cases v <;> rfl
  by_cases h17 : k = "locked_by"
  · subst h17; cases v <;> rfl
  by_cases h18 : k = "locked_at"
  · subst h18; cases v <;> rfl
  by_cases h19 : k = "created_at"
  · subst h19; cases v <;> rfl
  by_cases h20 : k = "updated_at"
  · subst h20; cases v <;> rfl
  unfold setAttrMS
  rw [if_neg h1, if_neg h2, if_neg h3, if_neg h4, if_neg h5, if_neg h6, if_neg h7, if_neg h8, if_neg h9, if_neg h10, if_neg h11, if_neg h12, if_neg h13, if_neg h14, if_neg h15, if_neg h16, if_neg h17, if_neg h18, if_neg h19, if_neg h20]

theorem applyKwargs_status_eq (kwargs : List (String × FieldVal)) (s : MigrationState)
    (hk : ∀ kv ∈ kwargs, kv.1 ≠ "status") : (applyKwargs s kwargs).status = s.status := by
  induction kwargs generalizing s with
  | nil => rfl
  | cons kv rest ih =>
    have h1 : kv.1 ≠ "status" := hk kv (by simp)
    have h2 : ∀ kv' ∈ rest, kv'.1 ≠ "status" := fun kv' hm => hk kv' (by simp [hm])
    exact (ih (setAttrMS s kv.1 kv.2) h2).trans (setAttrMS_status_eq s kv.1 kv.2 h1)

theorem applyKwargs_prev_eq (kwargs : List (String × FieldVal)) (s : MigrationState)
    (hk : ∀ kv ∈ kwargs, kv.1 ≠ "previous_status") :
    (applyKwargs s kwargs).previous_status = s.previous_status := by
  induction kwargs generalizing s with
  | nil => rfl
  | cons kv rest ih =>
    have h1 : kv.1 ≠ "previous_status" := hk kv (by simp)
    have h2 : ∀ kv' ∈ rest, kv'.1 ≠ "previous_status" := fun kv' hm => hk kv' (by simp [hm])
    exact (ih (setAttrMS s kv.1 kv.2) h2).trans (setAttrMS_prev_eq s kv.1 kv.2 h1)

theorem setAttrMS_unknown (s : MigrationState) (k : String) (v : FieldVal)
    (h : hasattrMS k = false) : setAttrMS s k v = s := by
  by_cases h1 : k = "api_id"
  · subst h1; exact absurd h (by decide)
  by_cases h2 : k = "api_name"
  · subst h2; exact absurd h (by decide)
  by_cases h3 : k = "platform"
  · subst h3; exact absurd h (by decide)
  by_cases h4 : k = "status"
  · subst h4; exact absurd h (by decide)
  by_cases h5 : k = "previous_status"
  · subst h5; exact absurd h (by decide)
  by_cases h6 : k = "gloo_namespace"
  · subst h6; exact absurd h (by decide)
  by_cases h7 : k = "gloo_virtual_service_name"
  · subst h7; exact absurd h (by decide)
  by_cases h8 : k = "gloo_configs"
  · subst h8; exact absurd h (by decide)
  by_cases h9 : k = "current_traffic_percentage"
  · subst h9; exact absurd h (by decide)
  by_cases h10 : k = "target_traffic_percentage"
  · subst h10; exact absurd h (by decide)
  by_cases h11 : k = "legacy_error_rate"
  · subst h11; exact absurd h (by decide)
  by_cases h12 : k = "gloo_error_rate"
  · subst h12; exact absurd h (by decide)
  by_cases h13 : k = "legacy_p95_latency_ms"
  · subst h13; exact absurd h (by decide)
  by_cases h14 : k = "gloo_p95_latency_ms"
  · subst h14; exact absurd h (by decide)
  by_cases h15 : k = "last_transition_at"
  · subst h15; exact absurd h (by decide)
  by_cases h16 : k = "transition_reason"
  · subst h16; exact absurd h (by decide)
  by_cases h17 : k = "locked_by"
  · subst h17; exact absurd h (by decide)
  by_cases h18 : k = "locked_at"
  · subst h18; exact absurd h (by decide)
  by_cases h19 : k = "created_at"
  · subst h19; exact absurd h (by decide)
  by_cases h20 : k = "updated_at"
  · subst h20; exact absurd h (by decide)
  unfold setAttrMS
  rw [if_neg h1, if_neg h2, if_neg h3, if_neg h4, if_neg h5, if_neg h6, if_neg h7, if_neg h8, if_neg h9, if_neg h10, if_neg h11, if_neg h12, if_neg h13, if_neg h14, if_neg h15, if_neg h16, if_neg h17, if_neg h18, if_neg h19, if_neg h20]

/-- Inversion for a successful `transition`: it found a record, the edge was
valid, and the returned record is the updated one. -/
theorem transitionT_ok_inv (tr : Tracker) (api : String) (target : MigrationStatus)
    (reason : Option String) (kwargs : List (String × FieldVal)) (now : Nat)
    (r : MigrationState)
    (h : (transitionT tr api target reason kwargs now).1 = .ok r) :
    ∃ s, getState tr api = some s ∧ canTransition s.status target = true ∧
      r = applyKwargs
        { s with
          previous_status := some s.status
          status := target
          last_transition_at := some now
          transition_reason := reason
          updated_at := some now } kwargs := by
  unfold transitionT at h
  split at h
  · simp at h
  · rename_i s hg
    split at h
    · rename_i hc
      simp only [Except.ok.injEq] at h
      exact ⟨s, hg, hc, h.symm⟩
    · simp at h

/-! ## Claim C2 -/

/-- Claim C2 (confirmed): for a stored record and any target status, if the
pair (current, target) is in the transition table then `transition` succeeds,
setting `previous_status` to the old status and `status` to the target (the
store holding the updated record); if the pair is not in the table,
`transition` fails with a `StateTransitionError` naming both states and the
store — hence every field of the record — is left unchanged. Auxiliary
kwargs are restricted to keys other than the two fields the claim pins
down. -/
theorem c2_transition_valid_and_invalid (tr : Tracker) (api : String)
    (s : MigrationState) (target : MigrationStatus) (reason : Option String)
    (kwargs : List (String × FieldVal)) (now : Nat)
    (h : getState tr api = some s)
    (hk : ∀ kv ∈ kwargs, kv.1 ≠ "status" ∧ kv.1 ≠ "previous_status") :
    (canTransition s.status target = true →
      ∃ s', transitionT tr api target reason kwargs now =
          (.ok s', updateTracker tr api s') ∧
        s'.previous_status = some s.status ∧ s'.status = target) ∧
    (canTransition s.status target = false →
      transitionT tr api target reason kwargs now =
        (.error (.invalidTransition s.status target), tr)) := by
  constructor
  · intro hc
    refine ⟨applyKwargs
      ({ s with
         previous_status := some s.status
         status := target
         last_transition_at := some now
         transition_reason := reason
         updated_at := some now }) kwargs, ?_, ?_, ?_⟩
    · simp only [transitionT, h, hc, if_true]
    · exact (applyKwargs_prev_eq kwargs _ (fun kv hm => (hk kv hm).2)).trans rfl
    · exact (applyKwargs_status_eq kwargs _ (fun kv hm => (hk kv hm).1)).trans rfl
  · intro hc
    simp only [transitionT, h, hc, Bool.false_eq_true, if_false]

/-- Claim C2 (witness): the theorem applied to the concrete
`DEPLOYED_MIRROR` record with target `CANARY_5`. -/
theorem c2_witness :
    getState mirrorTracker "api-1" = some mirrorRecord ∧
    ((canTransition mirrorRecord.status CANARY_5 = true →
      ∃ s', transitionT mirrorTracker "api-1" CANARY_5 (some "go") [] 3 =
          (.ok s', updateTracker mirrorTracker "api-1" s') ∧
        s'.previous_status = some mirrorRecord.status ∧ s'.status = CANARY_5) ∧
    (canTransition mirrorRecord.status CANARY_5 = false →
      transitionT mirrorTracker "api-1" CANARY_5 (some "go") [] 3 =
        (.error (.invalidTransition mirrorRecord.status CANARY_5), mirrorTracker))) :=
  ⟨by decide,
    c2_transition_valid_and_invalid mirrorTracker "api-1" mirrorRecord CANARY_5
      (some "go") [] 3 (by decide) (by simp)⟩

/-! ## Claim C3 -/

/-- A state record sitting at `CANARY_50` with 50% traffic. -/
def canary50Record : MigrationState :=
  { api_id := "api-3", api_name := "orders", platform := "apic",
    status := CANARY_50, current_traffic_percentage := 50 }

/-- A one-record store holding `canary50Record`. -/
def canary50Tracker : Tracker := updateTracker emptyTracker "api-3" canary50Record

/-- Claim C3 (counterexample): `fail` on a `CANARY_50` record with 50%
traffic transitions it to `FAILED` but leaves `current_traffic_percentage`
at 50, although the fixed mapping assigns 0 to the non-canary status
`FAILED` — so not every transition populates the field from the mapping. -/
theorem c3_fail_keeps_traffic :
    ((failT canary50Tracker "api-3" "smoke test failed" 9).1.map
        (fun r => (r.status, r.current_traffic_percentage)) = .ok (FAILED, 50)) ∧
    trafficFor FAILED = 0 := by decide

/-- Claim C3 (amended): the fixed status-to-percentage mapping is
CANARY_5 → 5, CANARY_25 → 25, CANARY_50 → 50, CANARY_75 → 75,
COMPLETED → 100 and 0 for every other status, but only `advance_canary`
populates `current_traffic_percentage` from it; `rollback` sets the field
to the literal 0 (which agrees with the mapping for `ROLLED_BACK`), while a
plain `transition` — in particular `fail` — leaves
`current_traffic_percentage` unchanged. -/
theorem c3_traffic_population :
    (trafficFor CANARY_5 = 5 ∧ trafficFor CANARY_25 = 25 ∧
     trafficFor CANARY_50 = 50 ∧ trafficFor CANARY_75 = 75 ∧
     trafficFor COMPLETED = 100 ∧
     ∀ st : MigrationStatus,
       st ∉ ([CANARY_5, CANARY_25, CANARY_50, CANARY_75, COMPLETED] :
         List MigrationStatus) → trafficFor st = 0) ∧
    (∀ (tr : Tracker) (api : String) (reason : Option String) (now : Nat)
        (r : MigrationState),
      (advanceCanary tr api reason now).1 = .ok r →
        r.current_traffic_percentage = trafficFor r.status ∧
        r.target_traffic_percentage = some (trafficFor r.status)) ∧
    (∀ (tr : Tracker) (api reason : String) (now : Nat) (r : MigrationState),
      (rollbackT tr api reason now).1 = .ok r →
        r.current_traffic_percentage = 0) ∧
    (∀ (tr : Tracker) (api reason : String) (now : Nat) (r s : MigrationState),
      getState tr api = some s →
      (failT tr api reason now).1 = .ok r →
        r.current_traffic_percentage = s.current_traffic_percentage) := by
  refine ⟨⟨rfl, rfl, rfl, rfl, rfl, ?_⟩, ?_, ?_, ?_⟩
  · intro st h
    cases st <;> first | rfl | (exact absurd (by decide) h)
  · intro tr api reason now r hEq
    unfold advanceCanary at hEq
    split at hEq
    · simp at hEq
    · split at hEq
      · simp at hEq
      · obtain ⟨s', hg', hc', hr⟩ := transitionT_ok_inv _ _ _ _ _ _ _ hEq
        subst hr
        rw [applyKwargs_ctp_ttp]
        exact ⟨rfl, rfl⟩
  · intro tr api reason now r hEq
    unfold rollbackT at hEq
    obtain ⟨s', hg', hc', hr⟩ := transitionT_ok_inv _ _ _ _ _ _ _ hEq
    subst hr
    rw [applyKwargs_ctp_zero]
  · intro tr api reason now r s hg hEq
    unfold failT at hEq
    obtain ⟨s', hg', hc', hr⟩ := transitionT_ok_inv _ _ _ _ _ _ _ hEq
    rw [hg] at hg'
    obtain rfl : s = s' := Option.some.inj hg'
    subst hr
    simp only [applyKwargs_nil]

/-- Claim C3 (witness): the amended theorem's `fail` branch applied to the
concrete `CANARY_50` record, together with a concrete `advance_canary`
instantiation. -/
theorem c3_traffic_population_witness :
    (getState canary50Tracker "api-3" = some canary50Record ∧
      ∀ r : MigrationState,
        (failT canary50Tracker "api-3" "smoke test failed" 9).1 = .ok r →
          r.current_traffic_percentage = canary50Record.current_traffic_percentage) ∧
    (∀ r : MigrationState,
      (advanceCanary canary50Tracker "api-3" none 9).1 = .ok r →
        r.current_traffic_percentage = trafficFor r.status ∧
        r.target_traffic_percentage = some (trafficFor r.status)) :=
  ⟨⟨by decide,
    fun r hr => c3_traffic_population.2.2.2 canary50Tracker "api-3"
      "smoke test failed" 9 r canary50Record (by decide) hr⟩,
   fun r hr => c3_traffic_population.2.1 canary50Tracker "api-3" none 9 r hr⟩

/-! ## Claim C4 -/

/-- Claim C4 (counterexample): create a record, advance it to `PLANNED`,
then call `create_state` again with the same api id: the second call does
not return the existing `PLANNED` record — it builds a fresh `DISCOVERED`
record and overwrites the store entry with it. -/
theorem c4_create_overwrites_existing :
    ((getState (transitionT (createState emptyTracker "api-4" "cart" "apic"
        DISCOVERED 1).2 "api-4" PLANNED (some "planning") [] 2).2 "api-4").map
      (fun r => r.status) = some PLANNED) ∧
    ((createState (transitionT (createState emptyTracker "api-4" "cart" "apic"
        DISCOVERED 1).2 "api-4" PLANNED (some "planning") [] 2).2
        "api-4" "cart" "apic" DISCOVERED 3).1.status = DISCOVERED) ∧
    (getState (createState (transitionT (createState emptyTracker "api-4" "cart"
        "apic" DISCOVERED 1).2 "api-4" PLANNED (some "planning") [] 2).2
        "api-4" "cart" "apic" DISCOVERED 3).2 "api-4" ≠
      getState (transitionT (createState emptyTracker "api-4" "cart" "apic"
        DISCOVERED 1).2 "api-4" PLANNED (some "planning") [] 2).2 "api-4") := by
  decide

/-- Claim C4 (amended): `create_state` is not idempotent — it always
constructs a fresh record (given initial status, no previous status, 0%
traffic, fresh timestamps) and stores it under `api_id`, overwriting any
record already present; entries under other api ids are untouched. -/
theorem c4_create_state_overwrites (tr : Tracker) (apiId apiName platform : String)
    (init : MigrationStatus) (now : Nat) :
    getState (createState tr apiId apiName platform init now).2 apiId =
      some (createState tr apiId apiName platform init now).1 ∧
    (createState tr apiId apiName platform init now).1.status = init ∧
    (createState tr apiId apiName platform init now).1.previous_status = none ∧
    (createState tr apiId apiName platform init now).1.current_traffic_percentage = 0 ∧
    (createState tr apiId apiName platform init now).1.created_at = some now ∧
    (∀ k, k ≠ apiId →
      getState (createState tr apiId apiName platform init now).2 k = getState tr k) := by
  refine ⟨?_, rfl, rfl, rfl, rfl, ?_⟩
  · simp [createState, getState, updateTracker]
  · intro k hk
    simp [createState, getState, updateTracker, hk]

/-- Claim C4 (witness): the amended theorem applied to a store that already
holds a `PLANNED` record under the same api id. -/
theorem c4_create_state_overwrites_witness :
    getState (createState (updateTracker emptyTracker "api-4"
        { api_id := "api-4", api_name := "cart", platform := "apic",
          status := PLANNED }) "api-4" "cart" "apic" DISCOVERED 3).2 "api-4" =
      some (createState (updateTracker emptyTracker "api-4"
        { api_id := "api-4", api_name := "cart", platform := "apic",
          status := PLANNED }) "api-4" "cart" "apic" DISCOVERED 3).1 ∧
    ("other" ≠ "api-4" ∧
      getState (createState (updateTracker emptyTracker "api-4"
        { api_id := "api-4", api_name := "cart", platform := "apic",
          status := PLANNED }) "api-4" "cart" "apic" DISCOVERED 3).2 "other" =
      getState (updateTracker emptyTracker "api-4"
        { api_id := "api-4", api_name := "cart", platform := "apic",
          status := PLANNED }) "other") :=
  ⟨(c4_create_state_overwrites _ "api-4" "cart" "apic" DISCOVERED 3).1,
    by decide,
    (c4_create_state_overwrites _ "api-4" "cart" "apic" DISCOVERED 3).2.2.2.2.2
      "other" (by decide)⟩

/-! ## Claim C10 -/

/-- Claim C10 (confirmed): passing an extra kwargs entry whose key is not a
`MigrationState` attribute leaves the outcome of `transition` — success or
error, resulting record and resulting store — exactly as if the entry had
not been passed: the unknown key is silently skipped by the `hasattr`
guard and only existing attributes are ever written. -/
theorem c10_unknown_kwargs_ignored (tr : Tracker) (api : String)
    (target : MigrationStatus) (reason : Option String)
    (kwargs : List (String × FieldVal)) (now : Nat) (k : String) (v : FieldVal)
    (h : hasattrMS k = false) :
    transitionT tr api target reason (kwargs ++ [(k, v)]) now =
      transitionT tr api target reason kwargs now := by
  have hak : ∀ s : MigrationState,
      applyKwargs s (kwargs ++ [(k, v)]) = applyKwargs s kwargs := by
    intro s
    unfold applyKwargs
    rw [List.foldl_append]
    simp only [List.foldl_cons, List.foldl_nil]
    exact setAttrMS_unknown _ k v h
  unfold transitionT
  cases hg : getState tr api <;> simp [hg, hak]

/-- Claim C10 (witness): the unknown key `bogus_key` is ignored on a
concrete valid transition. -/
theorem c10_unknown_kwargs_ignored_witness :
    hasattrMS "bogus_key" = false ∧
    transitionT mirrorTracker "api-1" CANARY_5 (some "go")
        ([("gloo_namespace", .vStr "prod-ns")] ++ [("bogus_key", .vStr "x")]) 3 =
      transitionT mirrorTracker "api-1" CANARY_5 (some "go")
        [("gloo_namespace", .vStr "prod-ns")] 3 :=
  ⟨by decide,
    c10_unknown_kwargs_ignored mirrorTracker "api-1" CANARY_5 (some "go")
      [("gloo_namespace", .vStr "prod-ns")] 3 "bogus_key" (.vStr "x") (by decide)⟩

/-! ## Claim C9 -/

/-- Claim C9 (confirmed): `renew_lock` by a team that does not own the lock
(no metadata stored, or a different stored holder team) returns `false` and
leaves the whole store — in particular the stored expiry and TTLs —
unchanged; conversely a renewal can only report success when the caller's
team matches the stored holder identity. -/
theorem c9_renew_requires_ownership (st : LockStore) (team : String)
    (timeout now : Nat) :
    (ownsLock st team = false → renewLock st team timeout now = (false, st)) ∧
    ((renewLock st team timeout now).1 = true → ownsLock st team = true) := by
  constructor
  · intro h
    unfold renewLock
    simp [h]
  · intro h
    by_cases ho : ownsLock st team = true
    · exact ho
    · exfalso
      unfold renewLock at h
      simp [ho] at h

/-- Claim C9 (witness): a lock held by `team-a` with metadata expiry 500;
a renew attempt by `team-b` returns false and leaves the store as it was,
and a successful renew by `team-a` implies ownership. -/
theorem c9_renew_requires_ownership_witness :
    (ownsLock
        { lockTTL := some 120
          infoVal := some { team := "team-a", locked_at := 10, expires_at := 500,
                            reason := "migration in progress", lock_id := "tok-1" }
          infoTTL := some 120 } "team-b" = false ∧
      renewLock
        { lockTTL := some 120
          infoVal := some { team := "team-a", locked_at := 10, expires_at := 500,
                            reason := "migration in progress", lock_id := "tok-1" }
          infoTTL := some 120 } "team-b" 1800 20 =
        (false,
          { lockTTL := some 120
            infoVal := some { team := "team-a", locked_at := 10, expires_at := 500,
                              reason := "migration in progress", lock_id := "tok-1" }
            infoTTL := some 120 })) ∧
    ((renewLock
        { lockTTL := some 120
          infoVal := some { team := "team-a", locked_at := 10, expires_at := 500,
                            reason := "migration in progress", lock_id := "tok-1" }
          infoTTL := some 120 } "team-a" 1800 20).1 = true →
      ownsLock
        { lockTTL := some 120
          infoVal := some { team := "team-a", locked_at := 10, expires_at := 500,
                            reason := "migration in progress", lock_id := "tok-1" }
          infoTTL := some 120 } "team-a" = true) :=
  ⟨⟨by decide,
    (c9_renew_requires_ownership _ "team-b" 1800 20).1 (by decide)⟩,
   (c9_renew_requires_ownership _ "team-a" 1800 20).2⟩

/-! ## Claim C5 -/

/-- A healthy source publishing one API. -/
def apiA : DiscoveredAPI :=
  { name := "api-a", platform := "apic", base_path := "/a", version := "v1",
    description := "A" }

/-- A second healthy source's API. -/
def apiB : DiscoveredAPI :=
  { name := "api-b", platform := "swagger", base_path := "/b", version := "v1",
    description := "B" }

/-- A connector whose `connect()` succeeds and which discovers `apiA`. -/
def connGood1 : Connector :=
  { connectResult := .ok (), discoverResult := .ok [apiA] }

/-- A connector whose `connect()` raises on every attempt. -/
def connBad : Connector :=
  { connectResult := .error "ConnectionError: boom",
    discoverResult := .error "ConnectionError: boom" }

/-- A connector whose `connect()` succeeds and which discovers `apiB`. -/
def connGood2 : Connector :=
  { connectResult := .ok (), discoverResult := .ok [apiB] }

/-- Claim C5 (code bug): `_discover_platform` carries a tenacity retry
decorator with `stop_after_attempt(3)`, but its body catches every raised
exception and returns a failed `BatchDiscoveryResult` instead of
re-raising, so no exception ever reaches the decorator: every source —
including one that raises on every attempt — is invoked exactly once, not
retried up to 3 attempts with backoff. The isolation half of the claim does
hold: the failing source contributes `success = false` and
`total_discovered = 0` while the other sources' APIs stay in the aggregate
result map. -/
theorem c5_no_retry_but_failure_isolated :
    (∀ (n : String) (c : Connector) (fe : Option FilterFn),
      discoverAttempts n c fe = 1) ∧
    discoverAttempts "bad" connBad none ≠ 3 ∧
    discoverAll [("p1", connGood1), ("bad", connBad), ("p2", connGood2)] none =
      [("p1",
        { platform := "p1", total_discovered := 1, filtered_count := 1,
          apis := [apiA], errors := [], duration_seconds := 0, success := true }),
       ("bad",
        { platform := "bad", total_discovered := 0, filtered_count := 0,
          apis := [],
          errors := ["Connection failed: ConnectionError: boom",
                     "ConnectionError: boom"],
          duration_seconds := 0, success := false }),
       ("p2",
        { platform := "p2", total_discovered := 1, filtered_count := 1,
          apis := [apiB], errors := [], duration_seconds := 0, success := true })] := by
  refine ⟨fun n c fe => rfl, by decide, by decide⟩

/-! ## Risk scorer lemmas -/

theorem le_foldl_authMax (l : List String) (a : ℚ) :
    a ≤ l.foldl (fun acc m => max acc (authComplexity m.toLower)) a := by
  induction l generalizing a with
  | nil => simp
  | cons m rest ih =>
    exact le_trans (le_max_left a (authComplexity m.toLower)) (ih _)

theorem calcTrafficRisk_nonneg (tp : Option TrafficPattern) :
    0 ≤ (calcTrafficRisk tp).1 := by
  unfold calcTrafficRisk
  repeat' split
  all_goals norm_num

theorem calcPerformanceRisk_nonneg (tp : Option TrafficPattern) :
    0 ≤ (calcPerformanceRisk tp).1 := by
  unfold calcPerformanceRisk
  repeat' split
  all_goals norm_num [min_def]

theorem calcAuthRisk_nonneg (am : Option (List String)) :
    0 ≤ (calcAuthRisk am).1 := by
  unfold calcAuthRisk
  repeat' split
  · norm_num
  · norm_num
  · exact le_foldl_authMax _ 0

theorem calcComplexityRisk_nonneg (nd : Int) (mw : Bool) :
    0 ≤ (calcComplexityRisk nd mw).1 := by
  unfold calcComplexityRisk
  repeat' split
  all_goals norm_num [min_def]

theorem criticalityMultiplier_nonneg (c : BusinessCriticality) :
    0 ≤ criticalityMultiplier c := by
  cases c <;> norm_num [criticalityMultiplier]

theorem roundHalfEven_le_of_le {x y : ℚ} (h : x ≤ y) :
    roundHalfEven x ≤ roundHalfEven y := by
  have hf : ⌊x⌋ ≤ ⌊y⌋ := Int.floor_le_floor h
  rcases lt_or_eq_of_le hf with hlt | heq
  · have hx : roundHalfEven x ≤ ⌊x⌋ + 1 := by
      unfold roundHalfEven; split_ifs <;> omega
    have hy : ⌊y⌋ ≤ roundHalfEven y := by
      unfold roundHalfEven; split_ifs <;> omega
    omega
  · have hfr : x - ⌊x⌋ ≤ y - ⌊y⌋ := by
      rw [← heq]
      linarith
    unfold roundHalfEven
    rw [← heq]
    split_ifs <;> first | omega | linarith

theorem round2_mono {x y : ℚ} (h : x ≤ y) : round2 x ≤ round2 y := by
  unfold round2
  have h1 : roundHalfEven (x * 100) ≤ roundHalfEven (y * 100) :=
    roundHalfEven_le_of_le (by linarith)
  have h2 : ((roundHalfEven (x * 100) : ℤ) : ℚ) ≤ ((roundHalfEven (y * 100) : ℤ) : ℚ) := by
    exact_mod_cast h1
  linarith

theorem calcTrafficRisk_mono (t : TrafficPattern) (a b : Int) (ha : 1 ≤ a)
    (hab : a ≤ b) :
    (calcTrafficRisk (some { t with avg_requests_per_day := some a })).1 ≤
    (calcTrafficRisk (some { t with avg_requests_per_day := some b })).1 := by
  unfold calcTrafficRisk
  dsimp only
  split_ifs <;> first | omega | norm_num

/-! ## Claim C7 -/

/-- A traffic pattern with 50000 requests/day, a clean error rate and a
fast 95th percentile. -/
def c7tp : TrafficPattern :=
  { avg_requests_per_day := some 50000, error_rate := some 0,
    p95_latency_ms := some 50 }

/-- Claim C7 (counterexample): at 50000 req/day, zero error rate, 50 ms
p95, no declared auth methods and criticality HIGH, the exact weighted,
multiplied and clamped value is 0.168 = 21/125, but the scorer returns it
rounded to two decimals: `overall_score = 0.17`, so the returned overall
score does not equal the claim's exact formula. -/
theorem c7_rounding_counterexample :
    (calculateRisk "x" (some c7tp) none (some .HIGH) 0 false).overall_score =
      17 / 100 ∧
    max 0 (min (((calcTrafficRisk (some c7tp)).1 * 0.4 +
        (calcPerformanceRisk (some c7tp)).1 * 0.3 +
        (calcAuthRisk none).1 * 0.2 +
        (calcComplexityRisk 0 false).1 * 0.1) *
        criticalityMultiplier .HIGH) 1) = 21 / 125 ∧
    (17 / 100 : ℚ) ≠ 21 / 125 := by
  refine ⟨?_, ?_, by norm_num⟩
  · norm_num [calculateRisk, calcTrafficRisk, calcPerformanceRisk, calcAuthRisk,
      calcComplexityRisk, criticalityMultiplier, c7tp, round2, roundHalfEven,
      min_def, max_def]
  · norm_num [calcTrafficRisk, calcPerformanceRisk, calcAuthRisk,
      calcComplexityRisk, criticalityMultiplier, c7tp, min_def, max_def]

/-- Claim C7 (amended): the scorer's overall score equals the weighted sum
(traffic × 0.4 + performance × 0.3 + auth × 0.2 + structural complexity ×
0.1) multiplied by the business-criticality factor (LOW 0.8, MEDIUM 1.0,
HIGH 1.2, CRITICAL 1.5), clamped to [0, 1] and then rounded to two decimal
places; the returned risk level is derived from the unrounded clamped
value: CRITICAL when it is at least 0.75, HIGH when at least 0.50, MEDIUM
when at least 0.25, and LOW otherwise. -/
theorem c7_score_formula (name : String) (tp : Option TrafficPattern)
    (am : Option (List String)) (c : BusinessCriticality) (nd : Int) (mw : Bool)
    (s : ℚ)
    (hs : s = max 0 (min (((calcTrafficRisk tp).1 * 0.4 +
      (calcPerformanceRisk tp).1 * 0.3 + (calcAuthRisk am).1 * 0.2 +
      (calcComplexityRisk nd mw).1 * 0.1) * criticalityMultiplier c) 1)) :
    (calculateRisk name tp am (some c) nd mw).overall_score = round2 s ∧
    (calculateRisk name tp am (some c) nd mw).risk_level =
      (if s ≥ 0.75 then .CRITICAL else if s ≥ 0.5 then .HIGH
       else if s ≥ 0.25 then .MEDIUM else .LOW) := by
  have hw : 0 ≤ (calcTrafficRisk tp).1 * 0.4 + (calcPerformanceRisk tp).1 * 0.3 +
      (calcAuthRisk am).1 * 0.2 + (calcComplexityRisk nd mw).1 * 0.1 := by
    have h1 := calcTrafficRisk_nonneg tp
    have h2 := calcPerformanceRisk_nonneg tp
    have h3 := calcAuthRisk_nonneg am
    have h4 := calcComplexityRisk_nonneg nd mw
    nlinarith
  have h0 : 0 ≤ min (((calcTrafficRisk tp).1 * 0.4 +
      (calcPerformanceRisk tp).1 * 0.3 + (calcAuthRisk am).1 * 0.2 +
      (calcComplexityRisk nd mw).1 * 0.1) * criticalityMultiplier c) 1 :=
    le_min (mul_nonneg hw (criticalityMultiplier_nonneg c)) (by norm_num)
  rw [max_eq_right h0] at hs
  subst hs
  unfold calculateRisk
  dsimp only
  exact ⟨rfl, rfl⟩

/-- Claim C7 (witness): the amended theorem applied to the concrete inputs
of the counterexample, with the clamped exact value 21/125. -/
theorem c7_score_formula_witness :
    ((21 / 125 : ℚ) = max 0 (min (((calcTrafficRisk (some c7tp)).1 * 0.4 +
        (calcPerformanceRisk (some c7tp)).1 * 0.3 +
        (calcAuthRisk none).1 * 0.2 +
        (calcComplexityRisk 0 false).1 * 0.1) *
        criticalityMultiplier .HIGH) 1)) ∧
    ((calculateRisk "x" (some c7tp) none (some .HIGH) 0 false).overall_score =
        round2 (21 / 125) ∧
      (calculateRisk "x" (some c7tp) none (some .HIGH) 0 false).risk_level =
        (if (21 / 125 : ℚ) ≥ 0.75 then .CRITICAL else if (21 / 125 : ℚ) ≥ 0.5 then .HIGH
         else if (21 / 125 : ℚ) ≥ 0.25 then .MEDIUM else .LOW)) :=
  ⟨by norm_num [calcTrafficRisk, calcPerformanceRisk, calcAuthRisk,
      calcComplexityRisk, criticalityMultiplier, c7tp, min_def, max_def],
    c7_score_formula "x" (some c7tp) none .HIGH 0 false (21 / 125)
      (by norm_num [calcTrafficRisk, calcPerformanceRisk, calcAuthRisk,
        calcComplexityRisk, criticalityMultiplier, c7tp, min_def, max_def])⟩

/-! ## Claim C8 -/

/-- Claim C8 (counterexample): Python's `not avg_requests_per_day` is true
for 0, so 0 requests/day is scored as "unknown traffic" (0.5) while 5000
requests/day scores 0.1 — the overall score strictly decreases when
requests/day grows from 0 to 5000, refuting monotonicity at a = 0. -/
theorem c8_zero_counterexample :
    ((0 : Int) ≤ 5000) ∧
    (calculateRisk "x"
      (some { avg_requests_per_day := some 5000, error_rate := some 0, p95_latency_ms := some 50 })
      none none 0 false).overall_score <
    (calculateRisk "x"
      (some { avg_requests_per_day := some 0, error_rate := some 0, p95_latency_ms := some 50 })
      none none 0 false).overall_score := by
  refine ⟨by decide, ?_⟩
  norm_num [calculateRisk, calcTrafficRisk, calcPerformanceRisk, calcAuthRisk,
    calcComplexityRisk, round2, roundHalfEven, min_def, max_def]

/-- Claim C8 (amended): for positive request counts (at least 1 request per
day) the overall risk score is monotonically non-decreasing in
`avg_requests_per_day`, all other inputs held fixed; at 0 requests/day the
falsy-value check reroutes to the "unknown traffic" branch and the property
fails. -/
theorem c8_monotone_in_traffic (t : TrafficPattern) (am : Option (List String))
    (c : Option BusinessCriticality) (nd : Int) (mw : Bool) (name1 name2 : String)
    (a b : Int) (ha : 1 ≤ a) (hab : a ≤ b) :
    (calculateRisk name1 (some { t with avg_requests_per_day := some a })
        am c nd mw).overall_score ≤
    (calculateRisk name2 (some { t with avg_requests_per_day := some b })
        am c nd mw).overall_score := by
  have htr := calcTrafficRisk_mono t a b ha hab
  have hperf : calcPerformanceRisk (some { t with avg_requests_per_day := some b }) =
      calcPerformanceRisk (some { t with avg_requests_per_day := some a }) := rfl
  unfold calculateRisk
  dsimp only
  apply round2_mono
  rcases c with _ | c
  · dsimp only
    rw [hperf]
    have := mul_le_mul_of_nonneg_right htr (show (0 : ℚ) ≤ 0.4 by norm_num)
    linarith
  · dsimp only
    apply min_le_min _ le_rfl
    apply mul_le_mul_of_nonneg_right _ (criticalityMultiplier_nonneg c)
    rw [hperf]
    have := mul_le_mul_of_nonneg_right htr (show (0 : ℚ) ≤ 0.4 by norm_num)
    linarith

/-- Claim C8 (witness): the amended theorem at 20000 ≤ 2000000 requests/day
with all other inputs fixed. -/
theorem c8_monotone_in_traffic_witness :
    ((1 : Int) ≤ 20000) ∧ ((20000 : Int) ≤ 2000000) ∧
    (calculateRisk "x" (some { c7tp with avg_requests_per_day := some 20000 })
        none none 0 false).overall_score ≤
    (calculateRisk "x" (some { c7tp with avg_requests_per_day := some 2000000 })
        none none 0 false).overall_score :=
  ⟨by decide, by decide,
    c8_monotone_in_traffic c7tp none none 0 false "x" "x" 20000 2000000
      (by decide) (by decide)⟩

end APIMigration
